import Mathlib

/-!
# fittingSCurves: the data loader and the fit driver of `interStripDistance_Analysis.C`

The development embeds `readTextFile` and the numeric part of
`interStripDistance_Analysis` (curve definitions, the two-stage fits per strip and the
derived inter-strip distance).  Plot styling, legends and the image export are left out.

Conventions of the embedding:

* text is a `List Char`; an input file is `Option (List Char)`, `none` standing for a file
  that `ifstream` could not open;
* `Float_t` values live in an arbitrary type `F`; the conversion done by the numeric
  facet of the stream is a parameter (`NumGet`);
* `Double_t` arithmetic is carried out in an arbitrary field `R` (exact arithmetic, no
  rounding; an ordered field where ranges are compared); the library routines
  `TMath::Erf`, `TMath::Sqrt`, the `TGraphErrors` constructor and `TGraph::Fit` are
  parameters;
* the `Int_t` counter `dataPoints` is an integer kept in the 32-bit range: the increment
  wraps from 2147483647 to -2147483648, as the compiled code does.
-/

namespace FittingSCurves

/-! ## Stream primitives of the standard library -/

/-- Whitespace in the classic locale, the characters an input sentry skips. -/
def isSpace (c : Char) : Bool :=
  c == ' ' || c == '\t' || c == '\n' || c == '\x0b' || c == '\x0c' || c == '\r'

/-- The numeric facet behind `operator>>(float&)`: `get` is given the text that starts at
the first non-whitespace character and answers the value that the conversion stores, or
`none` when no number can be read there. -/
structure NumGet (F : Type) where
  get : List Char → Option F

/-- Formatted extraction `stringstream(item) >> value`.  The sentry skips leading
whitespace; when the stream is exhausted by that, the sentry fails and `value` is left
untouched.  Otherwise the facet converts, and zero is stored when the conversion fails. -/
def extract {F : Type} [Zero F] (ng : NumGet F) (item : List Char) (value : F) : F :=
  match item.dropWhile isSpace with
  | [] => value
  | c :: cs => (ng.get (c :: cs)).getD 0

/-- One call of `std::getline(stream, str, delim)` on the unread part of a stream:
`none` when no character is left (the call fails), otherwise the text up to the
delimiter and the unread remainder behind the delimiter. -/
def getline (delim : Char) (s : List Char) : Option (List Char × List Char) :=
  match s with
  | [] => none
  | _ :: _ => some (s.takeWhile (fun c => c != delim), (s.dropWhile (fun c => c != delim)).drop 1)

/-- The texts delivered by the successive successful calls of `getline` on a stream,
that is the values the loop variable of `while (getline(stream, str, delim))` takes. -/
def getlines (delim : Char) : List Char → List (List Char)
  | [] => []
  | c :: cs =>
    if c = delim then [] :: getlines delim cs
    else
      match getlines delim cs with
      | [] => [[c]]
      | l :: ls => (c :: l) :: ls

/-! ## readTextFile -/

/-- The value of an integer in the range of `Int_t` (32 bits, two's complement). -/
def wrapInt32 (x : Int) : Int :=
  (x + 2147483648) % 4294967296 - 2147483648

/-- The objects `readTextFile` writes to: its five reference parameters and the error
stream. -/
structure Outputs (F : Type) where
  dataPoints : Int
  column1 : List F
  column2 : List F
  column3 : List F
  column4 : List F
  cerr : List String
deriving DecidableEq, Repr

/-- The inner loop `while (getline(ss, item, ','))` of `readTextFile`, run over the items
of one row.  The Boolean of the result is `true` when the `default` branch of the switch
executed `return`. -/
def itemLoop {F : Type} [Zero F] (ng : NumGet F) :
    List (List Char) → Nat → F → Outputs F → Outputs F × Bool
  | [], _, _, o => (o, false)
  | item :: rest, colIndex, value, o =>
    let value := extract ng item value
    match colIndex with
    | 0 => itemLoop ng rest (colIndex + 1) value { o with column1 := o.column1 ++ [value] }
    | 1 => itemLoop ng rest (colIndex + 1) value { o with column2 := o.column2 ++ [value] }
    | 2 => itemLoop ng rest (colIndex + 1) value { o with column3 := o.column3 ++ [value] }
    | 3 => itemLoop ng rest (colIndex + 1) value { o with column4 := o.column4 ++ [value] }
    | _ => ({ o with cerr := o.cerr ++ ["Unexpected column index\n"] }, true)

/-- The outer loop `while (getline(file, line))` of `readTextFile`, run over the lines of
the file.  `dataPoints++` is the increment of an `Int_t`.  `indet` gives the indeterminate
content of the uninitialised local `value` at the start of a row, as a function of the
row counter. -/
def lineLoop {F : Type} [Zero F] (ng : NumGet F) (indet : Int → F) :
    List (List Char) → Bool → Outputs F → Outputs F
  | [], _, o => o
  | line :: rest, isFirstLine, o =>
    if isFirstLine then lineLoop ng indet rest false o
    else
      let o := { o with dataPoints := wrapInt32 (o.dataPoints + 1) }
      match itemLoop ng (getlines ',' line) 0 (indet o.dataPoints) o with
      | (o, true) => o
      | (o, false) => lineLoop ng indet rest false o

/-- Embedding of `readTextFile`: `file` is the content of the file, `none` when it cannot
be opened. -/
def readTextFile {F : Type} [Zero F] (ng : NumGet F) (indet : Int → F)
    (file : Option (List Char))
    (o : Outputs F) : Outputs F :=
  match file with
  | none => { o with cerr := o.cerr ++ ["Error opening file\n"] }
  | some content => lineLoop ng indet (getlines '\n' content) true o

/-! ## A reference numeric facet on exact decimals -/

/-- An exact decimal number `mant / 10 ^ scale`. -/
structure Dec where
  mant : Int
  scale : Nat
deriving DecidableEq, Repr

/-- The decimal zero. -/
instance : Zero Dec := ⟨⟨0, 0⟩⟩

/-- Value of a run of decimal digits. -/
def digitsVal (ds : List Char) : Nat :=
  ds.foldl (fun a c => 10 * a + (c.toNat - 48)) 0

/-- Reads a plain decimal literal (optional sign, digits, optional fraction) at the start
of a text, as an exact decimal; an exponent part is not read. -/
def decGet (s : List Char) : Option Dec :=
  let (neg, s) :=
    match s with
    | '-' :: t => (true, t)
    | '+' :: t => (false, t)
    | _ => (false, s)
  let ip := s.takeWhile Char.isDigit
  let fp :=
    match s.dropWhile Char.isDigit with
    | '.' :: t => t.takeWhile Char.isDigit
    | _ => []
  if ip = [] ∧ fp = [] then none
  else
    let m : Int := digitsVal (ip ++ fp)
    some ⟨if neg then -m else m, fp.length⟩

/-- The reference facet: exact decimals. -/
def decNumGet : NumGet Dec := ⟨decGet⟩

/-- The state of the outputs in the driver before `readTextFile` is called. -/
def emptyOutputs (F : Type) : Outputs F := ⟨0, [], [], [], [], []⟩

/-! ## The fit model and the driver -/

/-- A point of a `TGraphErrors`: abscissa, ordinate and their errors. -/
structure Point (R : Type) where
  x : R
  y : R
  ex : R
  ey : R
deriving DecidableEq, Repr

/-- The state of a `TF1` object: its formula as a function of `x` and the parameter
vector, its range, and what a fit leaves in it. -/
structure TF1 (R : Type) where
  formula : R → (Nat → R) → R
  xmin : R
  xmax : R
  par : Nat → R
  parError : Nat → R
  fixed : Nat → Bool
  chisquare : R
  ndf : Int

/-- The constructor `TF1(name, formula, xmin, xmax)`: all parameters start at zero and
none is fixed. -/
def TF1.new {R : Type} [Zero R] (formula : R → (Nat → R) → R) (xmin xmax : R) : TF1 R :=
  ⟨formula, xmin, xmax, fun _ => 0, fun _ => 0, fun _ => false, 0, 0⟩

/-- The call `SetParameters(p0, p1, ...)` with the listed values; parameters behind the
listed ones are left as they are (zero in a function object that was just built). -/
def TF1.SetParameters {R : Type} (f : TF1 R) (ps : List R) : TF1 R :=
  { f with par := fun i => ps.getD i (f.par i) }

/-- The call `FixParameter(ipar, value)`: the parameter takes the value and is excluded
from later fits. -/
def TF1.FixParameter {R : Type} (f : TF1 R) (ipar : Nat) (value : R) : TF1 R :=
  { f with
    par := fun i => if i = ipar then value else f.par i
    fixed := fun i => if i = ipar then true else f.fixed i }

/-- The call `SetRange(xmin, xmax)`. -/
def TF1.SetRange {R : Type} (f : TF1 R) (xmin xmax : R) : TF1 R :=
  { f with xmin := xmin, xmax := xmax }

/-- The call `GetParameter(ipar)`. -/
def TF1.GetParameter {R : Type} (f : TF1 R) (ipar : Nat) : R := f.par ipar

/-- The call `GetParError(ipar)`. -/
def TF1.GetParError {R : Type} (f : TF1 R) (ipar : Nat) : R := f.parError ipar

/-- The left strip small curve, `"(TMath::Erf(-(x-[0])/[1])+1)*[2]+[3]"` on 155..200. -/
def erf_left_small_curve {R : Type} [Field R] (Erf : R → R) : TF1 R :=
  TF1.new (fun x p => (Erf (-(x - p 0) / p 1) + 1) * p 2 + p 3) 155 200

/-- The left strip large curve, `"(TMath::Erf(-(x-[0])/[1])+1)*[2]+[3]"` on 110..150. -/
def erf_left_large_curve {R : Type} [Field R] (Erf : R → R) : TF1 R :=
  TF1.new (fun x p => (Erf (-(x - p 0) / p 1) + 1) * p 2 + p 3) 110 150

/-- The right strip small curve, `"(TMath::Erf((x-[0])/[1])+1)*[2]+[3]"` on 170..215. -/
def erf_right_small_curve {R : Type} [Field R] (Erf : R → R) : TF1 R :=
  TF1.new (fun x p => (Erf ((x - p 0) / p 1) + 1) * p 2 + p 3) 170 215

/-- The right strip large curve, `"(TMath::Erf((x-[0])/[1])+1)*[2]+[3]"` on 220..260. -/
def erf_right_large_curve {R : Type} [Field R] (Erf : R → R) : TF1 R :=
  TF1.new (fun x p => (Erf ((x - p 0) / p 1) + 1) * p 2 + p 3) 220 260

/-- The lambda `toDoubleArray` of the driver. -/
def toDoubleArray {F R : Type} (toDouble : F → R) (vec : List F) : List R :=
  vec.map toDouble

/-- The type of the `TGraphErrors(n, x, y, ex, ey)` constructor, giving the points of the
graph. -/
abbrev GraphCtor (R : Type) := Int → List R → List R → List R → List R → List (Point R)

/-- The type of `TGraph::Fit(function, option)`: from the points of the graph, the
function object and the option string to the function object after the fit. -/
abbrev Fitter (R : Type) := List (Point R) → TF1 R → String → TF1 R

/-- The function object handed to the large-curve fit: initial guesses set, then the
offset fixed to the offset of the fitted small curve. -/
def prepareLarge {R : Type} (large : TF1 R) (guess : List R) (small : TF1 R) : TF1 R :=
  (large.SetParameters guess).FixParameter 3 (small.GetParameter 3)

/-- The two fits of the left strip (driver lines 105 to 114): the fitted small curve and
the fitted large curve. -/
def leftStripFits {R : Type} [Field R] (Erf : R → R) (Fit : Fitter R)
    (gr_leftStrip : List (Point R)) : TF1 R × TF1 R :=
  let small := Fit gr_leftStrip ((erf_left_small_curve Erf).SetParameters [130, 10, 35, 0]) "RMS"
  let large := Fit gr_leftStrip (prepareLarge (erf_left_large_curve Erf) [110, 10, 125] small) "RMS+"
  (small, large.SetRange 90 220)

/-- The two fits of the right strip (driver lines 127 to 136). -/
def rightStripFits {R : Type} [Field R] (Erf : R → R) (Fit : Fitter R)
    (gr_rightStrip : List (Point R)) : TF1 R × TF1 R :=
  let small := Fit gr_rightStrip ((erf_right_small_curve Erf).SetParameters [190, 10, 35, 0]) "RMS"
  let large := Fit gr_rightStrip (prepareLarge (erf_right_large_curve Erf) [220, 10, 125] small) "RMS+"
  (small, large.SetRange 150 280)

/-- What the driver computes: the error stream, the two graphs, the four fitted curves and
the derived quantity. -/
structure Analysis (R : Type) where
  cerr : List String
  gr_leftStrip : List (Point R)
  gr_rightStrip : List (Point R)
  erf_left_small_curve : TF1 R
  erf_left_large_curve : TF1 R
  erf_right_small_curve : TF1 R
  erf_right_large_curve : TF1 R
  interStripDistance : R
  errISD : R

/-- Embedding of the driver `interStripDistance_Analysis`, presentation left out.  The two
files are given by their contents (`none`: cannot be opened). -/
def interStripDistance_Analysis {F R : Type} [Zero F] [Field R] (ng : NumGet F)
    (indetLeft indetRight : Int → F) (toDouble : F → R) (Erf Sqrt : R → R)
    (TGraphErrors : GraphCtor R) (Fit : Fitter R)
    (leftStripDataFile rightStripDataFile : Option (List Char)) : Analysis R :=
  let left := readTextFile ng indetLeft leftStripDataFile (emptyOutputs F)
  let right := readTextFile ng indetRight rightStripDataFile { emptyOutputs F with cerr := left.cerr }
  let gr_leftStrip := TGraphErrors left.dataPoints (toDoubleArray toDouble left.column1)
    (toDoubleArray toDouble left.column3) (toDoubleArray toDouble left.column2)
    (toDoubleArray toDouble left.column4)
  let fitsLeft := leftStripFits Erf Fit gr_leftStrip
  let gr_rightStrip := TGraphErrors right.dataPoints (toDoubleArray toDouble right.column1)
    (toDoubleArray toDouble right.column3) (toDoubleArray toDouble right.column2)
    (toDoubleArray toDouble right.column4)
  let fitsRight := rightStripFits Erf Fit gr_rightStrip
  let interStripDistance := fitsRight.2.GetParameter 0 - fitsLeft.2.GetParameter 0
  let errISD := Sqrt (fitsRight.2.GetParError 0 ^ 2 + fitsLeft.2.GetParError 0 ^ 2)
  ⟨right.cerr, gr_leftStrip, gr_rightStrip, fitsLeft.1, fitsLeft.2, fitsRight.1, fitsRight.2,
    interStripDistance, errISD⟩

/-! ## Notions used to state the properties -/

/-- The curve model as the specification writes it,
`f(x) = A * (erf(s * (x - c) / w) + 1) + b` with `c, w, A, b` the parameters 0 to 3. -/
def specModel {R : Type} [Field R] (Erf : R → R) (s x : R) (p : Nat → R) : R :=
  p 2 * (Erf (s * (x - p 0) / p 1) + 1) + p 3

/-- A text that holds neither a comma nor a line break. -/
def noSeparator (f : List Char) : Bool :=
  f.all (fun c => c != ',' && c != '\n')

/-- The counter after `n` increments. -/
def countUp (d : Int) : Nat → Int
  | 0 => d
  | n + 1 => countUp (wrapInt32 (d + 1)) n

/-- The rows among the data lines for which `dataPoints` is incremented: all of them up to
and including the first one with more than four items. -/
def countedRows : List (List Char) → List (List Char)
  | [] => []
  | line :: rest =>
    if 4 < (getlines ',' line).length then [line] else line :: countedRows rest

/-- Number of values a row of `n` items appends to the column with index `k`. -/
def pushes (k n : Nat) : Nat := if k < n then 1 else 0

/-- The loop values of `getlines` are those of repeated calls of `getline`. -/
theorem getlines_eq_getline (d : Char) (s : List Char) :
    getlines d s =
      match getline d s with
      | none => []
      | some (l, rest) => l :: getlines d rest := by
  induction s with
  | nil => rfl
  | cons c cs ih =>
    by_cases h : c = d
    · subst h
      simp [getlines, getline]
    · cases cs with
      | nil => simp [getlines, getline, h]
      | cons c2 cs2 =>
        have hb : (c != d) = true := by simp [h]
        have hstep : getlines d (c :: c2 :: cs2) =
            match getlines d (c2 :: cs2) with
            | [] => [[c]]
            | l :: ls => (c :: l) :: ls := by
          simp [getlines, h]
        rw [hstep, ih]
        simp [getline, List.takeWhile_cons, List.dropWhile_cons, hb]

/-- A piece without delimiter in front of a delimiter is the first loop value. -/
theorem getlines_append_delim (d : Char) (l s : List Char) (h : ∀ c ∈ l, c ≠ d) :
    getlines d (l ++ d :: s) = l :: getlines d s := by
  induction l with
  | nil => simp [getlines]
  | cons c l ih =>
    have hc : c ≠ d := h c (by simp)
    have ih2 := ih (fun x hx => h x (by simp [hx]))
    simp [getlines, hc, ih2]

/-- A non-empty text without delimiter is the only loop value. -/
theorem getlines_no_delim (d : Char) (l : List Char) (h : ∀ c ∈ l, c ≠ d) (hne : l ≠ []) :
    getlines d l = [l] := by
  induction l with
  | nil => exact absurd rfl hne
  | cons c l ih =>
    have hc : c ≠ d := h c (by simp)
    cases l with
    | nil => simp [getlines, hc]
    | cons c2 l2 =>
      have ih2 := ih (fun x hx => h x (by simp [hx])) (by simp)
      simp [getlines, hc] at ih2 ⊢
      rw [ih2]

/-- A text that ends a line always yields at least one loop value. -/
theorem getlines_ne_nil (d : Char) (s : List Char) (hne : s ≠ []) : getlines d s ≠ [] := by
  cases s with
  | nil => exact absurd rfl hne
  | cons c cs =>
    by_cases h : c = d
    · simp [getlines, h]
    · simp only [getlines, if_neg h]
      cases getlines d cs <;> simp

/-- Splitting a stream behind a delimiter splits the loop values. -/
theorem getlines_split (d : Char) (s t : List Char) :
    getlines d (s ++ d :: t) = getlines d (s ++ [d]) ++ getlines d t := by
  induction s with
  | nil => simp [getlines]
  | cons c s ih =>
    by_cases h : c = d
    · simp [getlines, h, ih]
    · have hne : getlines d (s ++ [d]) ≠ [] := getlines_ne_nil d _ (by simp)
      have e1 : getlines d (c :: (s ++ d :: t)) =
          match getlines d (s ++ d :: t) with
          | [] => [[c]]
          | l :: ls => (c :: l) :: ls := by simp [getlines, h]
      have e2 : getlines d (c :: (s ++ [d])) =
          match getlines d (s ++ [d]) with
          | [] => [[c]]
          | l :: ls => (c :: l) :: ls := by simp [getlines, h]
      rw [List.cons_append, List.cons_append, e1, e2, ih]
      cases hg : getlines d (s ++ [d]) with
      | nil => exact absurd hg hne
      | cons l ls => simp


/-! ## The loops of readTextFile -/

/-- The effect of the inner loop on a row, started at column index 0: every column grows
by at most one value, and the loop returns early exactly when the row has more than four
items, after writing the message. -/
theorem itemLoop_zero_spec {F : Type} [Zero F] (ng : NumGet F) (items : List (List Char)) (v : F)
    (o : Outputs F) :
    ∃ a1 a2 a3 a4 : List F,
      itemLoop ng items 0 v o =
        ({ dataPoints := o.dataPoints, column1 := o.column1 ++ a1, column2 := o.column2 ++ a2,
           column3 := o.column3 ++ a3, column4 := o.column4 ++ a4,
           cerr := o.cerr ++
             (if 4 < items.length then ["Unexpected column index\n"] else []) },
         decide (4 < items.length)) ∧
      a1.length = pushes 0 items.length ∧ a2.length = pushes 1 items.length ∧
      a3.length = pushes 2 items.length ∧ a4.length = pushes 3 items.length := by
  match items with
  | [] => exact ⟨[], [], [], [], by simp [itemLoop], by simp [pushes]⟩
  | [a] =>
    exact ⟨[extract ng a v], [], [], [], by simp [itemLoop], by simp [pushes]⟩
  | [a, b] =>
    exact ⟨[extract ng a v], [extract ng b (extract ng a v)], [], [],
      by simp [itemLoop], by simp [pushes]⟩
  | [a, b, c] =>
    exact ⟨[extract ng a v], [extract ng b (extract ng a v)],
      [extract ng c (extract ng b (extract ng a v))], [],
      by simp [itemLoop], by simp [pushes]⟩
  | [a, b, c, d] =>
    exact ⟨[extract ng a v], [extract ng b (extract ng a v)],
      [extract ng c (extract ng b (extract ng a v))],
      [extract ng d (extract ng c (extract ng b (extract ng a v)))],
      by simp [itemLoop], by simp [pushes]⟩
  | a :: b :: c :: d :: e :: rest =>
    exact ⟨[extract ng a v], [extract ng b (extract ng a v)],
      [extract ng c (extract ng b (extract ng a v))],
      [extract ng d (extract ng c (extract ng b (extract ng a v)))],
      by simp [itemLoop], by simp [pushes]⟩

/-- The inner loop on a row of more than four items stores the first four extracted
values, writes the message and returns. -/
theorem itemLoop_five {F : Type} [Zero F] (ng : NumGet F) (a b c d e : List Char)
    (rest : List (List Char)) (v : F) (o : Outputs F) :
    itemLoop ng (a :: b :: c :: d :: e :: rest) 0 v o =
      ({ dataPoints := o.dataPoints,
         column1 := o.column1 ++ [extract ng a v],
         column2 := o.column2 ++ [extract ng b (extract ng a v)],
         column3 := o.column3 ++ [extract ng c (extract ng b (extract ng a v))],
         column4 := o.column4 ++
           [extract ng d (extract ng c (extract ng b (extract ng a v)))],
         cerr := o.cerr ++ ["Unexpected column index\n"] }, true) := by
  simp [itemLoop]

/-- Exact accounting of the outer loop behind the header: the counter is incremented once
for every counted row, column `k` grows by one value for every counted row with at least `k`
items, and the message is written when some row has more than four items. -/
theorem lineLoop_spec {F : Type} [Zero F] (ng : NumGet F) (indet : Int → F)
    (lines : List (List Char)) (o : Outputs F) :
    ∃ a1 a2 a3 a4 : List F,
      lineLoop ng indet lines false o =
        { dataPoints := countUp o.dataPoints (countedRows lines).length,
          column1 := o.column1 ++ a1, column2 := o.column2 ++ a2,
          column3 := o.column3 ++ a3, column4 := o.column4 ++ a4,
          cerr := o.cerr ++
            (if lines.any (fun l => decide (4 < (getlines ',' l).length))
              then ["Unexpected column index\n"] else []) } ∧
      a1.length = ((countedRows lines).map (fun l => pushes 0 (getlines ',' l).length)).sum ∧
      a2.length = ((countedRows lines).map (fun l => pushes 1 (getlines ',' l).length)).sum ∧
      a3.length = ((countedRows lines).map (fun l => pushes 2 (getlines ',' l).length)).sum ∧
      a4.length = ((countedRows lines).map (fun l => pushes 3 (getlines ',' l).length)).sum := by
  induction lines generalizing o with
  | nil =>
    exact ⟨[], [], [], [], by simp [lineLoop, countedRows, countUp], by simp [countedRows]⟩
  | cons line rest ih =>
    obtain ⟨b1, b2, b3, b4, hb, h1, h2, h3, h4⟩ :=
      itemLoop_zero_spec ng (getlines ',' line)
        (indet (wrapInt32 (o.dataPoints + 1)))
        { o with dataPoints := wrapInt32 (o.dataPoints + 1) }
    by_cases hlen : 4 < (getlines ',' line).length
    · refine ⟨b1, b2, b3, b4, ?_, ?_⟩
      · simp only [lineLoop, Bool.false_eq_true, if_false]
        rw [hb]
        simp [countedRows, hlen, countUp]
      · simp [countedRows, hlen, h1, h2, h3, h4]
    · obtain ⟨c1, c2, c3, c4, hc, g1, g2, g3, g4⟩ := ih
        { dataPoints := wrapInt32 (o.dataPoints + 1), column1 := o.column1 ++ b1,
          column2 := o.column2 ++ b2, column3 := o.column3 ++ b3,
          column4 := o.column4 ++ b4, cerr := o.cerr }
      refine ⟨b1 ++ c1, b2 ++ c2, b3 ++ c3, b4 ++ c4, ?_, ?_⟩
      · simp only [lineLoop, Bool.false_eq_true, if_false]
        rw [hb]
        simp only [hlen, decide_False, if_false, List.append_nil]
        rw [hc]
        simp [countedRows, hlen, countUp]
      · simp [countedRows, hlen, h1, h2, h3, h4, g1, g2, g3, g4]

/-! ## The counter -/

/-- A text free of separators holds no comma. -/
theorem noSeparator_comma {f : List Char} (h : noSeparator f = true) : ∀ c ∈ f, c ≠ ',' := by
  intro c hc
  have := (List.all_eq_true.mp h) c hc
  simp at this
  exact this.1

/-- A text free of separators holds no line break. -/
theorem noSeparator_newline {f : List Char} (h : noSeparator f = true) :
    ∀ c ∈ f, c ≠ '\n' := by
  intro c hc
  have := (List.all_eq_true.mp h) c hc
  simp at this
  exact this.2

/-- The outer loop skips the first line whatever it holds. -/
theorem lineLoop_true {F : Type} [Zero F] (ng : NumGet F) (indet : Int → F)
    (lines : List (List Char)) (o : Outputs F) :
    lineLoop ng indet lines true o = lineLoop ng indet lines.tail false o := by
  cases lines <;> simp [lineLoop]

/-- Every counted row is one of the lines. -/
theorem countedRows_subset (lines : List (List Char)) :
    ∀ l ∈ countedRows lines, l ∈ lines := by
  induction lines with
  | nil => simp [countedRows]
  | cons line rest ih =>
    intro l hl
    by_cases h : 4 < (getlines ',' line).length
    · simp [countedRows, h] at hl
      simp [hl]
    · simp only [countedRows, if_neg h, List.mem_cons] at hl
      rcases hl with hl | hl
      · simp [hl]
      · exact List.mem_cons_of_mem _ (ih l hl)

/-- C6 as amended: when every data row of the file has no item at all or at least four
items, so in particular for every well-formed file, the four sequences filled by
`readTextFile` from empty have the same length. -/
theorem columns_same_length {F : Type} [Zero F] (ng : NumGet F) (indet : Int → F)
    (content : List Char)
    (h : ∀ line ∈ (getlines '\n' content).tail,
      (getlines ',' line).length = 0 ∨ 4 ≤ (getlines ',' line).length) :
    (readTextFile ng indet (some content) (emptyOutputs F)).column1.length =
      (readTextFile ng indet (some content) (emptyOutputs F)).column2.length ∧
    (readTextFile ng indet (some content) (emptyOutputs F)).column2.length =
      (readTextFile ng indet (some content) (emptyOutputs F)).column3.length ∧
    (readTextFile ng indet (some content) (emptyOutputs F)).column3.length =
      (readTextFile ng indet (some content) (emptyOutputs F)).column4.length := by
  obtain ⟨a1, a2, a3, a4, hr, h1, h2, h3, h4⟩ :=
    lineLoop_spec ng indet (getlines '\n' content).tail (emptyOutputs F)
  have hrd : readTextFile ng indet (some content) (emptyOutputs F) =
      lineLoop ng indet (getlines '\n' content).tail false (emptyOutputs F) := by
    unfold readTextFile
    simp only
    rw [lineLoop_true]
  rw [hrd, hr]
  have key : ∀ j k : Nat, j < 4 → k < 4 →
      ((countedRows (getlines '\n' content).tail).map
        (fun l => pushes j (getlines ',' l).length)) =
      ((countedRows (getlines '\n' content).tail).map
        (fun l => pushes k (getlines ',' l).length)) := by
    intro j k hj hk
    apply List.map_congr_left
    intro l hl
    have hl2 := h l (countedRows_subset _ l hl)
    unfold pushes
    rcases hl2 with h0 | h4
    · simp [h0]
    · rw [if_pos (by omega), if_pos (by omega)]
  simp only [emptyOutputs, List.nil_append]
  rw [h1, h2, h3, h4, key 0 1 (by omega) (by omega), key 1 2 (by omega) (by omega),
    key 2 3 (by omega) (by omega)]
  exact ⟨rfl, rfl, rfl⟩

/-- An instance of the amended C6: a file with an empty line and a row of five items. -/
theorem columns_same_length_witness :
    (readTextFile decNumGet (fun _ => ⟨0, 0⟩) (some "h\n1,2,3,4\n\n5,6,7,8,9\n".toList)
        (emptyOutputs Dec)).column1.length =
      (readTextFile decNumGet (fun _ => ⟨0, 0⟩) (some "h\n1,2,3,4\n\n5,6,7,8,9\n".toList)
        (emptyOutputs Dec)).column2.length ∧
    (readTextFile decNumGet (fun _ => ⟨0, 0⟩) (some "h\n1,2,3,4\n\n5,6,7,8,9\n".toList)
        (emptyOutputs Dec)).column2.length =
      (readTextFile decNumGet (fun _ => ⟨0, 0⟩) (some "h\n1,2,3,4\n\n5,6,7,8,9\n".toList)
        (emptyOutputs Dec)).column3.length ∧
    (readTextFile decNumGet (fun _ => ⟨0, 0⟩) (some "h\n1,2,3,4\n\n5,6,7,8,9\n".toList)
        (emptyOutputs Dec)).column3.length =
      (readTextFile decNumGet (fun _ => ⟨0, 0⟩) (some "h\n1,2,3,4\n\n5,6,7,8,9\n".toList)
        (emptyOutputs Dec)).column4.length :=
  columns_same_length decNumGet (fun _ => ⟨0, 0⟩) "h\n1,2,3,4\n\n5,6,7,8,9\n".toList
    (by decide)

/-- C6 fails as stated: after the file with the single data row `1,2` the first two
sequences hold one value and the last two none. -/
theorem short_row_unequal_lengths :
    (readTextFile decNumGet (fun _ => ⟨0, 0⟩) (some "h\n1,2\n".toList)
        (emptyOutputs Dec)).column2.length = 1 ∧
    (readTextFile decNumGet (fun _ => ⟨0, 0⟩) (some "h\n1,2\n".toList)
        (emptyOutputs Dec)).column3.length = 0 ∧
    ¬ ((readTextFile decNumGet (fun _ => ⟨0, 0⟩) (some "h\n1,2\n".toList)
          (emptyOutputs Dec)).column1.length =
        (readTextFile decNumGet (fun _ => ⟨0, 0⟩) (some "h\n1,2\n".toList)
          (emptyOutputs Dec)).column2.length ∧
      (readTextFile decNumGet (fun _ => ⟨0, 0⟩) (some "h\n1,2\n".toList)
          (emptyOutputs Dec)).column2.length =
        (readTextFile decNumGet (fun _ => ⟨0, 0⟩) (some "h\n1,2\n".toList)
          (emptyOutputs Dec)).column3.length ∧
      (readTextFile decNumGet (fun _ => ⟨0, 0⟩) (some "h\n1,2\n".toList)
          (emptyOutputs Dec)).column3.length =
        (readTextFile decNumGet (fun _ => ⟨0, 0⟩) (some "h\n1,2\n".toList)
          (emptyOutputs Dec)).column4.length) := by
  decide


/-- Over lines of at most four items the outer loop never returns early, so it runs on
into the lines that follow. -/
theorem lineLoop_append {F : Type} [Zero F] (ng : NumGet F) (indet : Int → F)
    (A B : List (List Char)) (hA : ∀ line ∈ A, (getlines ',' line).length ≤ 4)
    (o : Outputs F) :
    lineLoop ng indet (A ++ B) false o =
      lineLoop ng indet B false (lineLoop ng indet A false o) := by
  induction A generalizing o with
  | nil => simp [lineLoop]
  | cons line rest ih =>
    have hlen : ¬ 4 < (getlines ',' line).length := by
      have := hA line (by simp)
      omega
    obtain ⟨b1, b2, b3, b4, hb, -⟩ :=
      itemLoop_zero_spec ng (getlines ',' line)
        (indet (wrapInt32 (o.dataPoints + 1)))
        { o with dataPoints := wrapInt32 (o.dataPoints + 1) }
    simp only [List.cons_append, lineLoop, Bool.false_eq_true, if_false]
    rw [hb]
    simp only [hlen, decide_False]
    exact ih (fun l hl => hA l (by simp [hl])) _

/-- C7 as amended: let a row with more than four items (four fields, a comma and at least
one more character) follow a header and rows of at most four items.  Then `readTextFile`
counts that row (one increment of the counter), appends its first four values, writes the message
`Unexpected column index` and returns: the result is the same whether the file ends
with that row or goes on with any further text, of which nothing is appended. -/
theorem long_row_aborts {F : Type} [Zero F] (ng : NumGet F) (indet : Int → F)
    (pre post f1 f2 f3 f4 f5 : List Char) (o : Outputs F)
    (h1 : noSeparator f1 = true) (h2 : noSeparator f2 = true) (h3 : noSeparator f3 = true)
    (h4 : noSeparator f4 = true) (h5 : f5 ≠ []) (h5n : '\n' ∉ f5)
    (hpre : ∀ line ∈ (getlines '\n' (pre ++ ['\n'])).tail, (getlines ',' line).length ≤ 4) :
    readTextFile ng indet
        (some (pre ++ '\n' :: (f1 ++ ',' :: (f2 ++ ',' :: (f3 ++ ',' :: (f4 ++ ',' :: f5))))))
        o =
      { dataPoints :=
          wrapInt32 ((readTextFile ng indet (some (pre ++ ['\n'])) o).dataPoints + 1),
        column1 := (readTextFile ng indet (some (pre ++ ['\n'])) o).column1 ++
          [extract ng f1 (indet (wrapInt32
            ((readTextFile ng indet (some (pre ++ ['\n'])) o).dataPoints + 1)))],
        column2 := (readTextFile ng indet (some (pre ++ ['\n'])) o).column2 ++
          [extract ng f2 (extract ng f1 (indet (wrapInt32
            ((readTextFile ng indet (some (pre ++ ['\n'])) o).dataPoints + 1))))],
        column3 := (readTextFile ng indet (some (pre ++ ['\n'])) o).column3 ++
          [extract ng f3 (extract ng f2 (extract ng f1 (indet (wrapInt32
            ((readTextFile ng indet (some (pre ++ ['\n'])) o).dataPoints + 1)))))],
        column4 := (readTextFile ng indet (some (pre ++ ['\n'])) o).column4 ++
          [extract ng f4 (extract ng f3 (extract ng f2 (extract ng f1 (indet (wrapInt32
            ((readTextFile ng indet (some (pre ++ ['\n'])) o).dataPoints + 1))))))],
        cerr := (readTextFile ng indet (some (pre ++ ['\n'])) o).cerr ++
          ["Unexpected column index\n"] } ∧
    readTextFile ng indet
        (some (pre ++ '\n' ::
          ((f1 ++ ',' :: (f2 ++ ',' :: (f3 ++ ',' :: (f4 ++ ',' :: f5)))) ++ '\n' :: post)))
        o =
      readTextFile ng indet
        (some (pre ++ '\n' :: (f1 ++ ',' :: (f2 ++ ',' :: (f3 ++ ',' :: (f4 ++ ',' :: f5))))))
        o := by
  -- the items of the long row
  have hne5 : getlines ',' f5 ≠ [] := getlines_ne_nil ',' f5 h5
  obtain ⟨e, es, he⟩ : ∃ e es, getlines ',' f5 = e :: es := by
    cases hg : getlines ',' f5 with
    | nil => exact absurd hg hne5
    | cons e es => exact ⟨e, es, rfl⟩
  have hitems : getlines ',' (f1 ++ ',' :: (f2 ++ ',' :: (f3 ++ ',' :: (f4 ++ ',' :: f5)))) =
      f1 :: f2 :: f3 :: f4 :: e :: es := by
    rw [getlines_append_delim _ _ _ (noSeparator_comma h1),
      getlines_append_delim _ _ _ (noSeparator_comma h2),
      getlines_append_delim _ _ _ (noSeparator_comma h3),
      getlines_append_delim _ _ _ (noSeparator_comma h4), he]
  -- the long row holds no line break
  have hbadn : ∀ c ∈ f1 ++ ',' :: (f2 ++ ',' :: (f3 ++ ',' :: (f4 ++ ',' :: f5))),
      c ≠ '\n' := by
    intro c hc
    simp only [List.mem_append, List.mem_cons] at hc
    rcases hc with hc | hc | hc | hc | hc | hc | hc | hc | hc
    · exact noSeparator_newline h1 c hc
    · subst hc; decide
    · exact noSeparator_newline h2 c hc
    · subst hc; decide
    · exact noSeparator_newline h3 c hc
    · subst hc; decide
    · exact noSeparator_newline h4 c hc
    · subst hc; decide
    · intro hcn; exact h5n (hcn ▸ hc)
  have hbadne : f1 ++ ',' :: (f2 ++ ',' :: (f3 ++ ',' :: (f4 ++ ',' :: f5))) ≠ [] := by simp
  -- the lines in front of the long row
  have hprene : getlines '\n' (pre ++ ['\n']) ≠ [] := getlines_ne_nil _ _ (by simp)
  obtain ⟨hd, tl, htl⟩ : ∃ hd tl, getlines '\n' (pre ++ ['\n']) = hd :: tl := by
    cases hg : getlines '\n' (pre ++ ['\n']) with
    | nil => exact absurd hg hprene
    | cons hd tl => exact ⟨hd, tl, rfl⟩
  have htl2 : ∀ line ∈ tl, (getlines ',' line).length ≤ 4 := by
    intro line hl
    apply hpre
    rw [htl]
    exact hl
  have hread : readTextFile ng indet (some (pre ++ ['\n'])) o = lineLoop ng indet tl false o := by
    unfold readTextFile
    simp only
    rw [htl]
    simp [lineLoop]
  -- one step of the outer loop on the long row
  have hstep : ∀ (rest : List (List Char)) (r : Outputs F),
      lineLoop ng indet
        ((f1 ++ ',' :: (f2 ++ ',' :: (f3 ++ ',' :: (f4 ++ ',' :: f5)))) :: rest) false r =
      { dataPoints := wrapInt32 (r.dataPoints + 1),
        column1 := r.column1 ++ [extract ng f1 (indet (wrapInt32 (r.dataPoints + 1)))],
        column2 := r.column2 ++
          [extract ng f2 (extract ng f1 (indet (wrapInt32 (r.dataPoints + 1))))],
        column3 := r.column3 ++
          [extract ng f3 (extract ng f2 (extract ng f1
            (indet (wrapInt32 (r.dataPoints + 1)))))],
        column4 := r.column4 ++
          [extract ng f4 (extract ng f3 (extract ng f2 (extract ng f1
            (indet (wrapInt32 (r.dataPoints + 1))))))],
        cerr := r.cerr ++ ["Unexpected column index\n"] } := by
    intro rest r
    simp only [lineLoop, Bool.false_eq_true, if_false]
    rw [hitems, itemLoop_five]
  have hshort : readTextFile ng indet
      (some (pre ++ '\n' :: (f1 ++ ',' :: (f2 ++ ',' :: (f3 ++ ',' :: (f4 ++ ',' :: f5))))))
      o = lineLoop ng indet
        [f1 ++ ',' :: (f2 ++ ',' :: (f3 ++ ',' :: (f4 ++ ',' :: f5)))] false
        (lineLoop ng indet tl false o) := by
    unfold readTextFile
    simp only
    rw [getlines_split, htl, getlines_no_delim _ _ hbadn hbadne]
    simp only [List.cons_append, lineLoop, if_true]
    exact lineLoop_append ng indet tl _ htl2 o
  have hlong : readTextFile ng indet
      (some (pre ++ '\n' ::
        ((f1 ++ ',' :: (f2 ++ ',' :: (f3 ++ ',' :: (f4 ++ ',' :: f5)))) ++ '\n' :: post)))
      o = lineLoop ng indet
        ((f1 ++ ',' :: (f2 ++ ',' :: (f3 ++ ',' :: (f4 ++ ',' :: f5)))) ::
          getlines '\n' post) false
        (lineLoop ng indet tl false o) := by
    unfold readTextFile
    simp only
    rw [getlines_split, htl, getlines_append_delim _ _ _ hbadn]
    simp only [List.cons_append, lineLoop, if_true]
    exact lineLoop_append ng indet tl _ htl2 o
  refine ⟨?_, ?_⟩
  · rw [hshort, hstep, hread]
  · rw [hlong, hshort, hstep, hstep]

/-- An instance of the amended C7: the row `5,6,7,8,9` stops the parse, the row behind it
is not read. -/
theorem long_row_aborts_witness :
    readTextFile decNumGet (fun _ => ⟨0, 0⟩)
        (some "h\n1,2,3,4\n5,6,7,8,9\n10,11,12,13".toList) (emptyOutputs Dec) =
      readTextFile decNumGet (fun _ => ⟨0, 0⟩)
        (some "h\n1,2,3,4\n5,6,7,8,9".toList) (emptyOutputs Dec) ∧
    (readTextFile decNumGet (fun _ => ⟨0, 0⟩)
        (some "h\n1,2,3,4\n5,6,7,8,9\n10,11,12,13".toList) (emptyOutputs Dec)).column1 =
      [⟨1, 0⟩, ⟨5, 0⟩] ∧
    (readTextFile decNumGet (fun _ => ⟨0, 0⟩)
        (some "h\n1,2,3,4\n5,6,7,8,9\n10,11,12,13".toList) (emptyOutputs Dec)).cerr =
      ["Unexpected column index\n"] :=
  have h := long_row_aborts decNumGet (fun _ => ⟨0, 0⟩) "h\n1,2,3,4".toList
    "10,11,12,13".toList "5".toList "6".toList "7".toList "8".toList "9".toList
    (emptyOutputs Dec) (by decide) (by decide) (by decide) (by decide) (by decide)
    (by decide) (by decide)
  ⟨h.2, by decide, by decide⟩

/-- C7 fails as stated: the row `1,2` has fewer than four fields, yet nothing is reported
and the fields of the row behind it are appended. -/
theorem short_row_not_reported :
    (readTextFile decNumGet (fun _ => ⟨0, 0⟩) (some "h\n1,2\n3,4,5,6\n".toList)
        (emptyOutputs Dec)).cerr = [] ∧
    (readTextFile decNumGet (fun _ => ⟨0, 0⟩) (some "h\n1,2\n3,4,5,6\n".toList)
        (emptyOutputs Dec)).column1 = [⟨1, 0⟩, ⟨3, 0⟩] ∧
    (readTextFile decNumGet (fun _ => ⟨0, 0⟩) (some "h\n1,2\n3,4,5,6\n".toList)
        (emptyOutputs Dec)).column3 = [⟨5, 0⟩] := by
  decide


/-- C8: when the file cannot be opened, `readTextFile` writes `Error opening file` and
returns with the counter and the four sequences as they were on entry; the driver then
builds the graph of that strip from the count 0 and four empty arrays and runs the fits of
the strip on it. -/
theorem readTextFile_unopened {F R : Type} [Zero F] [Field R] (ng : NumGet F)
    (indetLeft indetRight : Int → F) (toDouble : F → R) (Erf Sqrt : R → R)
    (TGraphErrors : GraphCtor R) (Fit : Fitter R) :
    (∀ (indet : Int → F) (o : Outputs F),
      readTextFile ng indet none o =
        { dataPoints := o.dataPoints, column1 := o.column1, column2 := o.column2,
          column3 := o.column3, column4 := o.column4,
          cerr := o.cerr ++ ["Error opening file\n"] }) ∧
    (∀ rightFile : Option (List Char),
      (interStripDistance_Analysis ng indetLeft indetRight toDouble Erf Sqrt TGraphErrors Fit
          none rightFile).gr_leftStrip = TGraphErrors 0 [] [] [] [] ∧
      (interStripDistance_Analysis ng indetLeft indetRight toDouble Erf Sqrt TGraphErrors Fit
          none rightFile).erf_left_small_curve =
        (leftStripFits Erf Fit (TGraphErrors 0 [] [] [] [])).1 ∧
      (interStripDistance_Analysis ng indetLeft indetRight toDouble Erf Sqrt TGraphErrors Fit
          none rightFile).erf_left_large_curve =
        (leftStripFits Erf Fit (TGraphErrors 0 [] [] [] [])).2) ∧
    (∀ leftFile : Option (List Char),
      (interStripDistance_Analysis ng indetLeft indetRight toDouble Erf Sqrt TGraphErrors Fit
          leftFile none).gr_rightStrip = TGraphErrors 0 [] [] [] [] ∧
      (interStripDistance_Analysis ng indetLeft indetRight toDouble Erf Sqrt TGraphErrors Fit
          leftFile none).erf_right_small_curve =
        (rightStripFits Erf Fit (TGraphErrors 0 [] [] [] [])).1 ∧
      (interStripDistance_Analysis ng indetLeft indetRight toDouble Erf Sqrt TGraphErrors Fit
          leftFile none).erf_right_large_curve =
        (rightStripFits Erf Fit (TGraphErrors 0 [] [] [] [])).2 ∧
      "Error opening file\n" ∈
        (interStripDistance_Analysis ng indetLeft indetRight toDouble Erf Sqrt TGraphErrors Fit
          leftFile none).cerr) := by
  refine ⟨fun indet o => rfl, fun rightFile => ⟨rfl, rfl, rfl⟩, fun leftFile => ?_⟩
  refine ⟨rfl, rfl, rfl, ?_⟩
  simp [interStripDistance_Analysis, readTextFile]

/-! ## Properties of the curves, the fits and the derived quantity -/

/-- C3: each of the four curve instances is the model
`f(x) = A * (erf(s * (x - c) / w) + 1) + b` of the specification with parameters
0 = c, 1 = w, 2 = A, 3 = b, for every `x` and every parameter vector with `w != 0`: the
left-strip curves with `s = -1`, the right-strip curves with `s = +1`, on the domains
[155, 200], [110, 150], [170, 215] and [220, 260]; for equal parameters a left (falling)
curve at `x` equals the right (rising) curve at `2c - x`. -/
theorem curves_match_model {R : Type} [Field R] (Erf : R → R) (x : R) (p : Nat → R)
    (hw : p 1 ≠ 0) :
    (erf_left_small_curve Erf).formula x p = specModel Erf (-1) x p ∧
    (erf_left_large_curve Erf).formula x p = specModel Erf (-1) x p ∧
    (erf_right_small_curve Erf).formula x p = specModel Erf 1 x p ∧
    (erf_right_large_curve Erf).formula x p = specModel Erf 1 x p ∧
    ((erf_left_small_curve Erf).xmin = 155 ∧ (erf_left_small_curve Erf).xmax = 200) ∧
    ((erf_left_large_curve Erf).xmin = 110 ∧ (erf_left_large_curve Erf).xmax = 150) ∧
    ((erf_right_small_curve Erf).xmin = 170 ∧ (erf_right_small_curve Erf).xmax = 215) ∧
    ((erf_right_large_curve Erf).xmin = 220 ∧ (erf_right_large_curve Erf).xmax = 260) ∧
    (erf_left_small_curve Erf).formula x p =
      (erf_right_small_curve Erf).formula (2 * p 0 - x) p ∧
    (erf_left_large_curve Erf).formula x p =
      (erf_right_large_curve Erf).formula (2 * p 0 - x) p ∧
    specModel Erf (-1) x p = specModel Erf 1 (2 * p 0 - x) p := by
  have hne := hw
  have e1 : -(x - p 0) / p 1 = -1 * (x - p 0) / p 1 := by ring
  have e2 : (x - p 0) / p 1 = 1 * (x - p 0) / p 1 := by ring
  have e3 : -(x - p 0) / p 1 = (2 * p 0 - x - p 0) / p 1 := by ring
  have e4 : -1 * (x - p 0) / p 1 = 1 * (2 * p 0 - x - p 0) / p 1 := by ring
  refine ⟨?_, ?_, ?_, ?_, ⟨rfl, rfl⟩, ⟨rfl, rfl⟩, ⟨rfl, rfl⟩, ⟨rfl, rfl⟩, ?_, ?_, ?_⟩
  · simp only [erf_left_small_curve, TF1.new, specModel, e1]; ring
  · simp only [erf_left_large_curve, TF1.new, specModel, e1]; ring
  · simp only [erf_right_small_curve, TF1.new, specModel, e2]; ring
  · simp only [erf_right_large_curve, TF1.new, specModel, e2]; ring
  · simp only [erf_left_small_curve, erf_right_small_curve, TF1.new, e3]
  · simp only [erf_left_large_curve, erf_right_large_curve, TF1.new, e3]
  · simp only [specModel, e4]

/-- An instance of C3 over the rationals, with the identity in the place of `erf`, at
`x = 160` and the initial guesses of the left small curve as parameters. -/
theorem curves_match_model_witness :
    ([130, 10, 35, 0].getD 1 (0 : ℚ) ≠ 0) ∧
    (erf_left_small_curve (fun t : ℚ => t)).formula 160 (fun i => [130, 10, 35, 0].getD i 0) =
      specModel (fun t : ℚ => t) (-1) 160 (fun i => [130, 10, 35, 0].getD i 0) ∧
    (erf_left_small_curve (fun t : ℚ => t)).formula 160 (fun i => [130, 10, 35, 0].getD i 0) =
      (erf_right_small_curve (fun t : ℚ => t)).formula (2 * 130 - 160)
        (fun i => [130, 10, 35, 0].getD i 0) :=
  have h := curves_match_model (fun t : ℚ => t) 160 (fun i => [130, 10, 35, 0].getD i 0)
    (by simp)
  ⟨by simp, h.1, h.2.2.2.2.2.2.2.2.1⟩

/-- C2: the derived quantity of the driver is
`distance = center of the right large curve - center of the left large curve` and
`distance_error = sqrt(e_right^2 + e_left^2)` with the standard errors of those two
centers, whatever field the arithmetic is done in; over the reals the errors 0.3 and 0.4
give 0.5, and two zero errors give 0. -/
theorem interStripDistance_formula :
    (∀ (F R : Type) [Zero F] [Field R] (ng : NumGet F) (indetLeft indetRight : Int → F)
      (toDouble : F → R) (Erf Sqrt : R → R) (TGraphErrors : GraphCtor R) (Fit : Fitter R)
      (leftFile rightFile : Option (List Char)),
      (interStripDistance_Analysis ng indetLeft indetRight toDouble Erf Sqrt TGraphErrors Fit
          leftFile rightFile).interStripDistance =
        (interStripDistance_Analysis ng indetLeft indetRight toDouble Erf Sqrt TGraphErrors Fit
          leftFile rightFile).erf_right_large_curve.GetParameter 0 -
        (interStripDistance_Analysis ng indetLeft indetRight toDouble Erf Sqrt TGraphErrors Fit
          leftFile rightFile).erf_left_large_curve.GetParameter 0 ∧
      (interStripDistance_Analysis ng indetLeft indetRight toDouble Erf Sqrt TGraphErrors Fit
          leftFile rightFile).errISD =
        Sqrt ((interStripDistance_Analysis ng indetLeft indetRight toDouble Erf Sqrt
            TGraphErrors Fit leftFile rightFile).erf_right_large_curve.GetParError 0 ^ 2 +
          (interStripDistance_Analysis ng indetLeft indetRight toDouble Erf Sqrt
            TGraphErrors Fit leftFile rightFile).erf_left_large_curve.GetParError 0 ^ 2)) ∧
    (∀ (F : Type) [Zero F] (ng : NumGet F) (indetLeft indetRight : Int → F)
      (toDouble : F → ℝ) (Erf : ℝ → ℝ) (TGraphErrors : GraphCtor ℝ) (Fit : Fitter ℝ)
      (leftFile rightFile : Option (List Char)),
      ((interStripDistance_Analysis ng indetLeft indetRight toDouble Erf Real.sqrt
            TGraphErrors Fit leftFile rightFile).erf_right_large_curve.GetParError 0 = 0.3 →
        (interStripDistance_Analysis ng indetLeft indetRight toDouble Erf Real.sqrt
            TGraphErrors Fit leftFile rightFile).erf_left_large_curve.GetParError 0 = 0.4 →
        (interStripDistance_Analysis ng indetLeft indetRight toDouble Erf Real.sqrt
            TGraphErrors Fit leftFile rightFile).errISD = 0.5) ∧
      ((interStripDistance_Analysis ng indetLeft indetRight toDouble Erf Real.sqrt
            TGraphErrors Fit leftFile rightFile).erf_right_large_curve.GetParError 0 = 0 →
        (interStripDistance_Analysis ng indetLeft indetRight toDouble Erf Real.sqrt
            TGraphErrors Fit leftFile rightFile).erf_left_large_curve.GetParError 0 = 0 →
        (interStripDistance_Analysis ng indetLeft indetRight toDouble Erf Real.sqrt
            TGraphErrors Fit leftFile rightFile).errISD = 0)) := by
  refine ⟨?_, ?_⟩
  · intros
    exact ⟨rfl, rfl⟩
  · intro F _ ng indetLeft indetRight toDouble Erf TGraphErrors Fit leftFile rightFile
    have herr : (interStripDistance_Analysis ng indetLeft indetRight toDouble Erf Real.sqrt
          TGraphErrors Fit leftFile rightFile).errISD =
        Real.sqrt ((interStripDistance_Analysis ng indetLeft indetRight toDouble Erf Real.sqrt
            TGraphErrors Fit leftFile rightFile).erf_right_large_curve.GetParError 0 ^ 2 +
          (interStripDistance_Analysis ng indetLeft indetRight toDouble Erf Real.sqrt
            TGraphErrors Fit leftFile rightFile).erf_left_large_curve.GetParError 0 ^ 2) := rfl
    refine ⟨?_, ?_⟩
    · intro hr hl
      rw [herr, hr, hl]
      have h5 : (0.3 : ℝ) ^ 2 + 0.4 ^ 2 = 0.5 ^ 2 := by norm_num
      rw [h5, Real.sqrt_sq (by norm_num)]
    · intro hr hl
      rw [herr, hr, hl]
      simp


end FittingSCurves
